import Mathlib

set_option maxHeartbeats 1000000

/-!
Verification development for the voice-agent backend.

The definitions below are a shallow embedding of the TypeScript sources:
`src/voice/voice.service.ts` (VoiceService and the current
OpenAIRealtimeService), `src/voice/voice.gateway.ts` (VoiceGateway) and
`src/supabase/supabase.service.ts` (SupabaseService.getRandomAgent).
Asynchronous external calls (Supabase persistence, OpenAI summary
generation, Math.random) are modelled as explicit oracle parameters
carrying the outcome of the call; JavaScript exceptions are modelled as
`Option PErr` error components carried alongside the mutated state
(in-place mutations performed before a throw remain visible, exactly as
in the source).  Messages handed to the upstream websocket are collected
in explicit event-trace lists.
-/

/-- Role of a transcript message (`'user' | 'assistant' | 'system'`). -/
inductive Role
  | user
  | assistant
  | system
deriving DecidableEq, Repr

/-- One entry of `ConversationContext.messageHistory`. -/
structure Message where
  role : Role
  content : String
deriving DecidableEq, Repr

/-- `ConversationContext.patientInfo`: all fields optional, `none`
models an absent key of the TypeScript object. -/
structure PatientInfo where
  fullName : Option String := none
  phone : Option String := none
  email : Option String := none
  country : Option String := none
  city : Option String := none
  age : Option Nat := none
  gender : Option String := none
  interestedTreatments : Option (List String) := none
  notes : Option String := none
deriving DecidableEq, Repr

/-- Lead status as computed by `calculateLeadScore`. -/
inductive LeadStatus
  | hot
  | warm
  | cold
deriving DecidableEq, Repr

/-- Result of `calculateLeadScore`. -/
structure LeadScore where
  score : Nat
  status : LeadStatus
deriving DecidableEq, Repr

/-- The in-memory session state (`ConversationContext` in
voice.service.ts).  `agentGender` is kept as a raw string, as the
runtime value comes from the database. -/
structure ConversationContext where
  conversationId : String
  patientId : Option String := none
  agentName : String
  agentGender : String
  language : String
  patientInfo : PatientInfo
  messageHistory : List Message
deriving DecidableEq, Repr

/-- A persistence-layer error (the `error` object thrown by the Supabase
service methods); only its message is observable in the embedded code. -/
structure PErr where
  msg : String
deriving DecidableEq, Repr

/-- Result of `SupabaseService.getRandomAgent`. -/
structure Agent where
  name : String
  gender : String
deriving DecidableEq, Repr

/-- A row of the `agent_names` table (`select name, gender`). -/
structure AgentRow where
  name : String
  gender : String
deriving DecidableEq, Repr

/-- The conversation row returned by `createConversation` (only its id
is read by the embedded code). -/
structure ConvRow where
  id : String
deriving DecidableEq, Repr

/-- The patient row returned by `createPatient` (only its id is read). -/
structure PatientRow where
  id : String
deriving DecidableEq, Repr

/-! ## String helpers (JavaScript semantics) -/

/-- `needle` occurs as a contiguous run inside the character list
(JavaScript `String.prototype.includes`). -/
def charsContains (needle : List Char) : List Char → Bool
  | [] => needle.isEmpty
  | c :: rest => List.isPrefixOf needle (c :: rest) || charsContains needle rest

/-- JavaScript `hay.includes(needle)`. -/
def strIncludes (hay needle : String) : Bool :=
  charsContains needle.data hay.data

/-- ASCII lower-casing of one character (the high-value keywords are
ASCII, so this matches JavaScript `toLowerCase` wherever it matters). -/
def charLower (c : Char) : Char :=
  if 'A' ≤ c ∧ c ≤ 'Z' then Char.ofNat (c.toNat + 32) else c

/-- JavaScript `s.toLowerCase()` (ASCII range). -/
def toLowerCase (s : String) : String :=
  String.mk (s.data.map charLower)

/-- JavaScript truthiness of an optional string (`undefined` and `""`
are falsy). -/
def truthyS : Option String → Bool
  | none => false
  | some s => !(s == "")

/-- JavaScript truthiness of an optional number (`undefined` and `0`
are falsy). -/
def truthyN : Option Nat → Bool
  | none => false
  | some n => !(n == 0)

/-! ## VoiceService.calculateLeadScore -/

/-- The fixed high-value keyword list from `calculateLeadScore`. -/
def highValueTreatments : List String :=
  ["hair transplant", "dental", "bariatric", "plastic surgery", "rhinoplasty"]

/-- The filter predicate `(m) => m.role === 'user'`. -/
def isUserMsg (m : Message) : Bool :=
  match m.role with
  | .user => true
  | _ => false

/-- Embedding of `VoiceService.calculateLeadScore`
(voice.service.ts lines 241-280), with the same sequential
accumulation, truthiness tests and thresholds as the source. -/
def calculateLeadScore (ctx : ConversationContext) : LeadScore :=
  let info := ctx.patientInfo
  let score : Nat := 0
  let score := if truthyS info.fullName then score + 10 else score
  let score := if truthyS info.phone then score + 15 else score
  let score := if truthyS info.email then score + 5 else score
  let score := if truthyN info.age then score + 5 else score
  let score := if truthyS info.country then score + 5 else score
  let score := if truthyS info.city then score + 5 else score
  let score :=
    match info.interestedTreatments with
    | some ts =>
        if ts.length > 0 then
          let score := score + 15
          if ts.any (fun t => highValueTreatments.any (fun hv => strIncludes (toLowerCase t) hv)) then
            score + 15
          else score
        else score
    | none => score
  let messageCount := (ctx.messageHistory.filter isUserMsg).length
  let score :=
    if messageCount ≥ 10 then score + 25
    else if messageCount ≥ 5 then score + 15
    else if messageCount ≥ 3 then score + 10
    else if messageCount ≥ 1 then score + 5
    else score
  let status : LeadStatus :=
    if score ≥ 70 then .hot
    else if score ≥ 40 then .warm
    else .cold
  ⟨score, status⟩

/-! Spec-side reformulation of the lead-score summands (the spec states
the score as a sum of independent bonuses; the source accumulates them
sequentially).  Used only on the specification side of claim C1. -/

/-- The recorded treatments, reading an absent list as empty. -/
def specTreatments (ctx : ConversationContext) : List String :=
  ctx.patientInfo.interestedTreatments.getD []

/-- Some recorded treatment contains a high-value keyword
(case-insensitive substring). -/
def specHasHighValue (ctx : ConversationContext) : Bool :=
  (specTreatments ctx).any (fun t => highValueTreatments.any (fun hv => strIncludes (toLowerCase t) hv))

/-- The engagement bonus as a function of the user-message count. -/
def engagementBonusSpec (n : Nat) : Nat :=
  if n ≥ 10 then 25 else if n ≥ 5 then 15 else if n ≥ 3 then 10 else if n ≥ 1 then 5 else 0

/-- Concrete context of the spec's first lead-score example:
fullName, phone, age, country, interestedTreatments = ["hair transplant"],
six user messages. -/
def exampleHotContext : ConversationContext :=
  { conversationId := "c-hot"
    agentName := "Maya"
    agentGender := "female"
    language := "en"
    patientInfo :=
      { fullName := some "John Smith"
        phone := some "+44 1234 567890"
        age := some 35
        country := some "United Kingdom"
        interestedTreatments := some ["hair transplant"] }
    messageHistory := List.replicate 6 ⟨Role.user, "hello"⟩ }

/-- Concrete context of the spec's second lead-score example: empty
patient info, no messages. -/
def exampleEmptyContext : ConversationContext :=
  { conversationId := "c-empty"
    agentName := "Maya"
    agentGender := "female"
    language := "en"
    patientInfo := {}
    messageHistory := [] }

/-- Sequential accumulation of one conditional bonus equals adding the
corresponding summand. -/
theorem ite_add_shift (c : Prop) [Decidable c] (S k : Nat) :
    (if c then S + k else S) = S + (if c then k else 0) := by
  split_ifs <;> omega

/-- The sequential engagement branch of `calculateLeadScore` equals
adding `engagementBonusSpec`. -/
theorem engagement_shift (S n : Nat) :
    (if n ≥ 10 then S + 25
     else if n ≥ 5 then S + 15
     else if n ≥ 3 then S + 10
     else if n ≥ 1 then S + 5
     else S) = S + engagementBonusSpec n := by
  simp only [engagementBonusSpec]
  split_ifs <;> omega

/-- The status component of `calculateLeadScore` is determined by its
score component through the fixed thresholds. -/
theorem leadScore_status_eq (ctx : ConversationContext) :
    (calculateLeadScore ctx).status =
      (if 70 ≤ (calculateLeadScore ctx).score then LeadStatus.hot
       else if 40 ≤ (calculateLeadScore ctx).score then LeadStatus.warm
       else LeadStatus.cold) := rfl

/-- C1: `calculateLeadScore` is the deterministic sum of the contact,
personal-detail, treatment-interest and engagement bonuses described in
the spec, its status is `hot` iff score ≥ 70, `warm` iff 40 ≤ score < 70
and `cold` otherwise, and the two concrete spec examples evaluate to
score 80 / `hot` and score 0 / `cold` respectively. -/
theorem c1_calculateLeadScore_correct (ctx : ConversationContext) :
    ((calculateLeadScore ctx).score =
        (if truthyS ctx.patientInfo.fullName then 10 else 0)
      + (if truthyS ctx.patientInfo.phone then 15 else 0)
      + (if truthyS ctx.patientInfo.email then 5 else 0)
      + (if truthyN ctx.patientInfo.age then 5 else 0)
      + (if truthyS ctx.patientInfo.country then 5 else 0)
      + (if truthyS ctx.patientInfo.city then 5 else 0)
      + (if 0 < (specTreatments ctx).length then 15 else 0)
      + (if 0 < (specTreatments ctx).length ∧ specHasHighValue ctx = true then 15 else 0)
      + engagementBonusSpec (ctx.messageHistory.filter isUserMsg).length)
    ∧ ((calculateLeadScore ctx).status = .hot ↔ 70 ≤ (calculateLeadScore ctx).score)
    ∧ ((calculateLeadScore ctx).status = .warm ↔
        40 ≤ (calculateLeadScore ctx).score ∧ (calculateLeadScore ctx).score < 70)
    ∧ ((calculateLeadScore ctx).status = .cold ↔ (calculateLeadScore ctx).score < 40)
    ∧ calculateLeadScore exampleHotContext = ⟨80, .hot⟩
    ∧ calculateLeadScore exampleEmptyContext = ⟨0, .cold⟩ := by
  refine ⟨?_, ?_, ?_, ?_, by decide, by decide⟩
  · rcases hT : ctx.patientInfo.interestedTreatments with _ | ts
    · simp only [calculateLeadScore, specTreatments, specHasHighValue, hT, Option.getD_none]
      rw [engagement_shift]
      simp only [ite_add_shift]
      simp
    · simp only [calculateLeadScore, specTreatments, specHasHighValue, hT, Option.getD_some]
      rw [engagement_shift]
      simp only [ite_add_shift]
      by_cases hl : 0 < ts.length
      · by_cases ha :
          ts.any (fun t => highValueTreatments.any fun hv => strIncludes (toLowerCase t) hv) = true
        · simp [hl, ha]
        · simp [hl, ha]
      · simp [hl]
  all_goals rw [leadScore_status_eq]; split_ifs <;> simp_all <;> omega

/-! ## JavaScript `Map` semantics (association list with unique keys) -/

/-- A JavaScript `Map<string, α>` as an association list; `Map.set` on an
existing key overwrites in place, otherwise appends. -/
abbrev JMap (α : Type) := List (String × α)

/-- `Map.get(k)` (`undefined` becomes `none`). -/
def mapGet {α : Type} (m : JMap α) (k : String) : Option α :=
  (m.find? (fun p => p.1 == k)).map (fun p => p.2)

/-- `Map.set(k, v)`. -/
def mapSet {α : Type} (m : JMap α) (k : String) (v : α) : JMap α :=
  if m.any (fun p => p.1 == k) then
    m.map (fun p => if p.1 == k then (k, v) else p)
  else
    m ++ [(k, v)]

/-- `Map.delete(k)`. -/
def mapDelete {α : Type} (m : JMap α) (k : String) : JMap α :=
  m.filter (fun p => p.1 != k)

/-- Well-formedness: the key multiset of a JavaScript `Map` has no
duplicates. -/
def mapWF {α : Type} (m : JMap α) : Prop :=
  (m.map Prod.fst).Nodup

/-- Number of entries stored under key `k`. -/
def keyCount {α : Type} (m : JMap α) (k : String) : Nat :=
  (m.filter (fun p => p.1 == k)).length

theorem mapGet_set_self {α : Type} (m : JMap α) (k : String) (v : α) :
    mapGet (mapSet m k v) k = some v := by
  induction m with
  | nil => simp [mapGet, mapSet]
  | cons p rest ih =>
      by_cases hp : p.1 = k
      · simp [mapGet, mapSet, hp, List.find?]
      · have hp' : (p.1 == k) = false := by simp [hp]
        by_cases hr : rest.any (fun q => q.1 == k)
        · simp only [mapSet, List.any_cons, hp', Bool.false_or, hr, if_true] at ih ⊢
          simpa [mapGet, List.find?, hp'] using ih
        · simp only [mapSet, List.any_cons, hp', Bool.false_or, hr, if_false] at ih ⊢
          simpa [mapGet, List.find?, hp'] using ih

theorem find?_overwrite_ne {α : Type} (k k' : String) (v : α) (h : (k == k') = false) :
    ∀ m : JMap α,
      List.find? (fun p => p.1 == k') (m.map (fun p => if p.1 == k then (k, v) else p)) =
        List.find? (fun p => p.1 == k') m
  | [] => rfl
  | p :: rest => by
      simp only [List.map_cons]
      by_cases hp : p.1 = k
      · have h1 : (p.1 == k) = true := by simp [hp]
        have h2 : (p.1 == k') = false := by rw [hp]; exact h
        rw [if_pos h1, List.find?_cons_of_neg _ (by simp [h]),
          List.find?_cons_of_neg _ (by simp [h2])]
        exact find?_overwrite_ne k k' v h rest
      · rw [if_neg (by simp [hp] : ¬((p.1 == k) = true))]
        by_cases hq : p.1 = k'
        · rw [List.find?_cons_of_pos _ (by simp [hq]), List.find?_cons_of_pos _ (by simp [hq])]
        · rw [List.find?_cons_of_neg _ (by simp [hq]), List.find?_cons_of_neg _ (by simp [hq])]
          exact find?_overwrite_ne k k' v h rest

theorem mapGet_set_ne {α : Type} (m : JMap α) (k k' : String) (v : α) (h : k' ≠ k) :
    mapGet (mapSet m k v) k' = mapGet m k' := by
  have hk : (k == k') = false := by
    simp only [beq_eq_false_iff_ne, ne_eq]
    exact fun hc => h hc.symm
  unfold mapSet
  by_cases ha : m.any (fun p => p.1 == k)
  · rw [if_pos ha]
    simp only [mapGet, find?_overwrite_ne k k' v hk m]
  · rw [if_neg ha]
    simp only [mapGet]
    rw [List.find?_append]
    simp [List.find?_cons, hk]

theorem mapGet_delete_self {α : Type} (m : JMap α) (k : String) :
    mapGet (mapDelete m k) k = none := by
  induction m with
  | nil => rfl
  | cons p rest ih =>
      by_cases hp : p.1 = k
      · simpa [mapGet, mapDelete, List.filter_cons, hp] using ih
      · simpa [mapGet, mapDelete, List.filter_cons, List.find?_cons, hp, bne] using ih

theorem mapGet_delete_ne {α : Type} (m : JMap α) (k k' : String) (h : k' ≠ k) :
    mapGet (mapDelete m k) k' = mapGet m k' := by
  induction m with
  | nil => rfl
  | cons p rest ih =>
      by_cases hp : p.1 = k
      · have h2 : (p.1 == k') = false := by
          simp only [beq_eq_false_iff_ne, ne_eq]
          exact fun hc => h (hc.symm.trans hp)
        have e1 : mapDelete (p :: rest) k = mapDelete rest k := by
          unfold mapDelete
          exact List.filter_cons_of_neg (by simp [hp])
        have e2 : mapGet (p :: rest) k' = mapGet rest k' := by
          unfold mapGet
          rw [List.find?_cons_of_neg _ (by simp [h2])]
        rw [e1, e2]
        exact ih
      · have e1 : mapDelete (p :: rest) k = p :: mapDelete rest k := by
          unfold mapDelete
          exact List.filter_cons_of_pos (by simp [hp])
        by_cases hq : p.1 = k'
        · have e2 : ∀ l : JMap α, mapGet (p :: l) k' = some p.2 := by
            intro l
            unfold mapGet
            rw [List.find?_cons_of_pos _ (by simp [hq])]
            rfl
          rw [e1, e2, e2]
        · have e2 : ∀ l : JMap α, mapGet (p :: l) k' = mapGet l k' := by
            intro l
            unfold mapGet
            rw [List.find?_cons_of_neg _ (by simp [hq])]
          rw [e1, e2, e2]
          exact ih

theorem mapDelete_idem {α : Type} (m : JMap α) (k : String) :
    mapDelete (mapDelete m k) k = mapDelete m k := by
  induction m with
  | nil => rfl
  | cons p rest ih =>
      by_cases hp : p.1 = k
      · simpa [mapDelete, List.filter_cons, hp, bne] using ih
      · simpa [mapDelete, List.filter_cons, hp, bne] using ih

theorem keys_overwrite {α : Type} (k : String) (v : α) :
    ∀ m : JMap α,
      (m.map (fun p => if p.1 == k then (k, v) else p)).map Prod.fst = m.map Prod.fst
  | [] => rfl
  | p :: rest => by
      simp only [List.map_cons]
      rw [keys_overwrite k v rest]
      by_cases hp : p.1 = k
      · rw [if_pos (by simp [hp] : (p.1 == k) = true)]
        simp [hp]
      · rw [if_neg (by simp [hp] : ¬((p.1 == k) = true))]

theorem mapWF_set {α : Type} (m : JMap α) (k : String) (v : α) (h : mapWF m) :
    mapWF (mapSet m k v) := by
  unfold mapSet
  by_cases ha : m.any (fun p => p.1 == k)
  · rw [if_pos ha]
    unfold mapWF
    rw [keys_overwrite]
    exact h
  · rw [if_neg ha]
    unfold mapWF
    rw [List.map_append]
    have hk : k ∉ m.map Prod.fst := by
      intro hmem
      rcases List.mem_map.mp hmem with ⟨p, hpm, hpk⟩
      have : m.any (fun p => p.1 == k) = true :=
        List.any_eq_true.mpr ⟨p, hpm, by simp [hpk]⟩
      simp [this] at ha
    simp [List.nodup_append, hk]
    exact h

theorem mapWF_delete {α : Type} (m : JMap α) (k : String) (h : mapWF m) :
    mapWF (mapDelete m k) := by
  unfold mapWF mapDelete
  exact List.Nodup.sublist (List.Sublist.map Prod.fst (List.filter_sublist m)) h

theorem keyCount_zero_of_not_mem {α : Type} (m : JMap α) (k : String)
    (h : k ∉ m.map Prod.fst) : keyCount m k = 0 := by
  induction m with
  | nil => rfl
  | cons p rest ih =>
      simp only [List.map_cons, List.mem_cons, not_or] at h
      have e1 : keyCount (p :: rest) k = keyCount rest k := by
        unfold keyCount
        rw [List.filter_cons_of_neg (by simp; exact fun hc => h.1 hc.symm)]
      rw [e1]
      exact ih h.2

theorem keyCount_le_one {α : Type} (m : JMap α) (k : String) (h : mapWF m) :
    keyCount m k ≤ 1 := by
  induction m with
  | nil => simp [keyCount]
  | cons p rest ih =>
      unfold mapWF at h
      simp only [List.map_cons, List.nodup_cons] at h
      rcases h with ⟨hp, hrest⟩
      by_cases hk : p.1 = k
      · have hz : keyCount rest k = 0 :=
          keyCount_zero_of_not_mem rest k (by rw [← hk]; exact hp)
        have e1 : keyCount (p :: rest) k = keyCount rest k + 1 := by
          unfold keyCount
          rw [List.filter_cons_of_pos (by simp [hk])]
          simp [List.length_cons]
        omega
      · have e1 : keyCount (p :: rest) k = keyCount rest k := by
          unfold keyCount
          rw [List.filter_cons_of_neg (by simp [hk])]
        rw [e1]
        exact ih hrest

/-! ## VoiceService: registry-mutating operations

Each operation of `VoiceService` (voice.service.ts) is embedded as a
pure function on the conversation registry.  Outcomes of awaited
Supabase calls are passed in as `Except PErr` oracle parameters; a
thrown (uncaught) persistence error appears as a `some` error component
while the registry component keeps every in-place mutation performed
before the throw, exactly as in the source. -/

/-- The `conversations` map of `VoiceService`. -/
abbrev Registry := JMap ConversationContext

/-- Labels of attempted database writes (coarse trace of the Supabase
calls issued by an operation). -/
inductive DbWrite
  | createConversation (language : String) (agentName : String)
  | updateConversationLang (id : String) (language : String) (agentName : String)
  | linkPatient (id : String) (patientId : String)
  | finalizeConversation (id : String) (summary : Option String) (score : Nat)
      (status : LeadStatus)
  | insertMessage (id : String) (role : Role) (content : String)
  | createPatientRow (info : PatientInfo)
  | updatePatientRow (patientId : String) (info : PatientInfo)
deriving DecidableEq, Repr

/-- Result of a `VoiceService` operation: the new registry, the
attempted database writes, and the error propagated to the caller (if
the operation threw). -/
structure VRes where
  reg : Registry
  db : List DbWrite
  err : Option PErr
deriving DecidableEq, Repr

/-- `VoiceService.getConversation` (voice.service.ts line 69). -/
def getConversation (reg : Registry) (conversationId : String) :
    Option ConversationContext :=
  mapGet reg conversationId

/-- The empty `patientInfo` object a fresh conversation starts with. -/
def emptyPatientInfo : PatientInfo := {}

/-- `VoiceService.initializeConversation` (voice.service.ts lines 44-67).
`agent` is the result of the awaited `getRandomAgent` (which never
throws: it falls back internally), `createRes` the outcome of
`createConversation`.  On a failed record creation the error propagates
and the registry is left unchanged; on success the new context is
registered under the created row's id and returned. -/
def initializeConversation (reg : Registry) (language : String) (agent : Agent)
    (createRes : Except PErr ConvRow) : VRes × Option ConversationContext :=
  match createRes with
  | .error e => (⟨reg, [.createConversation language agent.name], some e⟩, none)
  | .ok row =>
      let ctx : ConversationContext :=
        { conversationId := row.id
          patientId := none
          agentName := agent.name
          agentGender := agent.gender
          language := language
          patientInfo := emptyPatientInfo
          messageHistory := [] }
      (⟨mapSet reg row.id ctx, [.createConversation language agent.name], none⟩, some ctx)

/-- `VoiceService.updateConversationLanguage` (voice.service.ts lines
73-88).  No-op when the id is unknown or the language is unchanged;
otherwise re-rolls the persona (`agent` is the awaited `getRandomAgent`
result), mutates the context in place and persists (`persistRes`).  A
persistence failure propagates after the in-place mutation. -/
def updateConversationLanguage (reg : Registry) (conversationId language : String)
    (agent : Agent) (persistRes : Except PErr Unit) : VRes :=
  match mapGet reg conversationId with
  | none => ⟨reg, [], none⟩
  | some ctx =>
      if ctx.language = language then ⟨reg, [], none⟩
      else
        let ctx' := { ctx with
          language := language
          agentName := agent.name
          agentGender := agent.gender }
        let reg' := mapSet reg conversationId ctx'
        match persistRes with
        | .ok _ => ⟨reg', [.updateConversationLang conversationId language agent.name], none⟩
        | .error e => ⟨reg', [.updateConversationLang conversationId language agent.name], some e⟩

/-- `VoiceService.addMessage` (voice.service.ts lines 90-107): appends
to the in-memory history, then persists the message. -/
def addMessage (reg : Registry) (conversationId : String) (role : Role)
    (content : String) (persistRes : Except PErr Unit) : VRes :=
  match mapGet reg conversationId with
  | none => ⟨reg, [], none⟩
  | some ctx =>
      let ctx' := { ctx with messageHistory := ctx.messageHistory ++ [⟨role, content⟩] }
      let reg' := mapSet reg conversationId ctx'
      match persistRes with
      | .ok _ => ⟨reg', [.insertMessage conversationId role content], none⟩
      | .error e => ⟨reg', [.insertMessage conversationId role content], some e⟩

/-- JavaScript object spread on one optional field: a key present in the
update object (`some`) overwrites, an absent key (`none`) keeps the old
value. -/
def overrideField {α : Type} (old new : Option α) : Option α :=
  match new with
  | some v => some v
  | none => old

/-- The field-by-field merge `{ ...context.patientInfo, ...patientInfo }`
from `VoiceService.updatePatientInfo`. -/
def mergeInfo (old pnew : PatientInfo) : PatientInfo :=
  { fullName := overrideField old.fullName pnew.fullName
    phone := overrideField old.phone pnew.phone
    email := overrideField old.email pnew.email
    country := overrideField old.country pnew.country
    city := overrideField old.city pnew.city
    age := overrideField old.age pnew.age
    gender := overrideField old.gender pnew.gender
    interestedTreatments := overrideField old.interestedTreatments pnew.interestedTreatments
    notes := overrideField old.notes pnew.notes }

/-- `VoiceService.updatePatientInfo` (voice.service.ts lines 109-158).
Merges the partial update into the draft, then — only when the merged
draft has a truthy name or phone — upserts the patient record.  All
persistence failures inside the `try` are caught and swallowed, so the
operation never propagates an error and the merged draft is always
retained. -/
def updatePatientInfo (reg : Registry) (conversationId : String) (pnew : PatientInfo)
    (createRes : Except PErr PatientRow) (_updateRes : Except PErr Unit)
    (_linkRes : Except PErr Unit) : VRes :=
  match mapGet reg conversationId with
  | none => ⟨reg, [], none⟩
  | some ctx =>
      let merged := mergeInfo ctx.patientInfo pnew
      let ctx1 := { ctx with patientInfo := merged }
      if truthyS merged.fullName || truthyS merged.phone then
        match ctx.patientId with
        | some pid =>
            -- update path; a failure of `_updateRes` is caught and logged
            ⟨mapSet reg conversationId ctx1, [.updatePatientRow pid merged], none⟩
        | none =>
            match createRes with
            | .error _ =>
                -- creation failed: caught and logged, draft retained
                ⟨mapSet reg conversationId ctx1, [.createPatientRow merged], none⟩
            | .ok patient =>
                -- link the new patient id into the session and conversation
                -- row; a failure of `_linkRes` is caught and logged
                let ctx2 := { ctx1 with patientId := some patient.id }
                ⟨mapSet reg conversationId ctx2,
                  [.createPatientRow merged, .linkPatient conversationId patient.id], none⟩
      else ⟨mapSet reg conversationId ctx1, [], none⟩

/-- `VoiceService.endConversation` (voice.service.ts lines 160-188).
`genRes` is the outcome of the awaited summary generation (its failure
is caught: the summary is simply omitted); `persistRes` the outcome of
the final `updateConversation` (not caught: on failure the error
propagates and the registry delete is never reached). -/
def endConversation (reg : Registry) (conversationId : String)
    (providedSummary : Option String) (genRes : Except PErr String)
    (persistRes : Except PErr Unit) : VRes :=
  match mapGet reg conversationId with
  | none => ⟨reg, [], none⟩
  | some ctx =>
      let summary : Option String :=
        if !truthyS providedSummary && ctx.messageHistory.length > 0 then
          match genRes with
          | .ok s => some s
          | .error _ => providedSummary
        else providedSummary
      let lead := calculateLeadScore ctx
      let write := DbWrite.finalizeConversation conversationId summary lead.score lead.status
      match persistRes with
      | .error e => ⟨reg, [write], some e⟩
      | .ok _ => ⟨mapDelete reg conversationId, [write], none⟩

/-! ## OpenAIRealtimeService

Embedding of the current `OpenAIRealtimeService` (the version carried in
src/voice/voice.service.ts lines 693-1137: language-guarded
`detect_language`, greeting latch with connection check).  Events passed
to `sendEvent` are collected as trace lists; actual wire delivery is the
business of `sendEvent` itself, which consults the `connections` map. -/

/-- `ws.readyState` values. -/
inductive ReadyState
  | connecting
  | opened
  | closing
  | closed
deriving DecidableEq, Repr

/-- A provider websocket handle. -/
structure WS where
  sockId : Nat
  readyState : ReadyState
deriving DecidableEq, Repr

/-- The `connections` map of `OpenAIRealtimeService`. -/
abbrev Connections := JMap WS

/-- The result envelope built by `handleFunctionCall`
(`{success, message?, error?, newAgentName?, newLanguage?}`). -/
structure ToolResult where
  success : Bool
  message : Option String := none
  error : Option String := none
  newAgentName : Option String := none
  newLanguage : Option String := none
deriving DecidableEq, Repr

/-- Events handed to `sendEvent` for upstream delivery.  The session
configuration payload is represented by the data the claims observe
(voice and transcription language); the instruction text is a pure
string template with no bearing on any claim. -/
inductive OutEvent
  | sessionUpdate (voice : String) (whisperLanguage : String)
  | itemCreateFunctionOutput (callId : String) (output : ToolResult)
  | responseCreate
  | inputAudioAppend (audio : String)
  | inputAudioCommit
  | responseCancel
deriving DecidableEq, Repr

/-- `getWhisperLanguage`: identity on the six supported codes, `"en"`
otherwise. -/
def getWhisperLanguage (language : String) : String :=
  if language = "tr" ∨ language = "en" ∨ language = "de" ∨ language = "ar" ∨
      language = "fr" ∨ language = "ru" then language
  else "en"

/-- `getVoiceForGender`: `'male' → 'echo'`, otherwise `'shimmer'`. -/
def getVoiceForGender (gender : String) : String :=
  if gender = "male" then "echo" else "shimmer"

/-- `getLanguageName`: full language name with `'English'` default. -/
def getLanguageName (code : String) : String :=
  if code = "tr" then "Turkish"
  else if code = "en" then "English"
  else if code = "de" then "German"
  else if code = "ar" then "Arabic"
  else if code = "fr" then "French"
  else if code = "ru" then "Russian"
  else "English"

/-- The single `session.update` event emitted by
`updateSessionLanguage` (reconfiguration after a language change). -/
def updateSessionLanguageEvent (ctx : ConversationContext) : OutEvent :=
  .sessionUpdate (getVoiceForGender ctx.agentGender) (getWhisperLanguage ctx.language)

/-- `OpenAIRealtimeService.sendEvent`: returns the wire messages
actually written to the socket.  When no connection is registered for
the id, or the socket is not OPEN, nothing is sent (only an error is
logged) and the call returns normally — it never throws. -/
def sendEvent (conns : Connections) (conversationId : String) (event : OutEvent) :
    List (String × OutEvent) :=
  match mapGet conns conversationId with
  | some ws => if ws.readyState = .opened then [(conversationId, event)] else []
  | none => []

/-- `sendAudio`: pass-through to `sendEvent` with an
`input_audio_buffer.append` payload. -/
def sendAudio (conns : Connections) (conversationId : String) (audio : String) :
    List (String × OutEvent) :=
  sendEvent conns conversationId (.inputAudioAppend audio)

/-- `commitAudio`: pass-through to `sendEvent`. -/
def commitAudio (conns : Connections) (conversationId : String) :
    List (String × OutEvent) :=
  sendEvent conns conversationId .inputAudioCommit

/-- `cancelResponse`: pass-through to `sendEvent`. -/
def cancelResponse (conns : Connections) (conversationId : String) :
    List (String × OutEvent) :=
  sendEvent conns conversationId .responseCancel

/-- The registration step of `createSession`
(`this.connections.set(conversationId, ws)`). -/
def registerConnection (conns : Connections) (conversationId : String) (ws : WS) :
    Connections :=
  mapSet conns conversationId ws

/-- Result of `closeSession`: the new map and the ids of the sockets on
which `.close()` was invoked. -/
structure CloseRes where
  conns : Connections
  closed : List Nat
deriving DecidableEq, Repr

/-- `OpenAIRealtimeService.closeSession`: closes and deregisters the
connection if one is registered, otherwise does nothing. -/
def closeSession (conns : Connections) (conversationId : String) : CloseRes :=
  match mapGet conns conversationId with
  | some ws => ⟨mapDelete conns conversationId, [ws.sockId]⟩
  | none => ⟨conns, []⟩

/-- `OpenAIRealtimeService.isConnected`. -/
def isConnected (conns : Connections) (conversationId : String) : Bool :=
  match mapGet conns conversationId with
  | some ws => ws.readyState = .opened
  | none => false

/-! ## Tool handler (`handleFunctionCall`, current version with
language-equality guard, voice.service.ts lines 959-1029) -/

/-- The decoded `(name, JSON.parse(arguments))` of a tool-call
completion event, partitioned exactly along the control paths of the
handler's `try`/`switch`: a parse failure (JSON.parse threw), an
`update_patient_info` call with its parsed partial, a `detect_language`
call with its schema-required language string, or an unknown tool
name. -/
inductive ToolCall
  | malformed (parseError : String)
  | updatePatientInfoCall (pnew : PatientInfo)
  | detectLanguageCall (language : String)
  | unknown (name : String)
deriving DecidableEq, Repr

/-- The `{success:false, error}` envelope built in the `catch` and
`default` paths. -/
def failureResult (msg : String) : ToolResult :=
  { success := false, error := some msg }

/-- The acknowledgment for `detect_language` when the requested language
equals the session language. -/
def alreadySetMessage (language : String) : String :=
  "Language is already set to " ++ language ++ ". Continue in " ++
    getLanguageName language ++ "."

/-- The acknowledgment for `detect_language` after a switch. -/
def switchedMessage (oldLanguage newLanguage agentName : String) : String :=
  "Language switched from " ++ oldLanguage ++ " to " ++ newLanguage ++
    ". You MUST now speak ONLY in " ++ getLanguageName newLanguage ++
    ". Your new name is " ++ agentName ++
    ". Acknowledge this change by greeting the patient again in " ++
    getLanguageName newLanguage ++ "."

/-- Result of `handleFunctionCall`: new registry, database writes, and
the events handed to `sendEvent` in order.  The handler never throws
(all errors are caught and encoded into the result envelope), hence no
error component. -/
structure HRes where
  reg : Registry
  db : List DbWrite
  sent : List OutEvent
deriving DecidableEq, Repr

/-- Embedding of `OpenAIRealtimeService.handleFunctionCall`
(voice.service.ts lines 959-1029).  If the conversation id is not in
the registry the handler returns immediately and sends nothing.
Otherwise it executes the tool (errors caught into a
`{success:false}` result), then always emits exactly one
`conversation.item.create`/`function_call_output` carrying the
originating `call_id` followed by one `response.create`. -/
def handleFunctionCall (reg : Registry) (conversationId : String) (call : ToolCall)
    (callId : String) (agent : Agent) (langPersist : Except PErr Unit)
    (createRes : Except PErr PatientRow) (updateRes : Except PErr Unit)
    (linkRes : Except PErr Unit) : HRes :=
  match mapGet reg conversationId with
  | none => ⟨reg, [], []⟩
  | some ctx =>
      let step : Registry × List DbWrite × List OutEvent × ToolResult :=
        match call with
        | .malformed parseError => (reg, [], [], failureResult parseError)
        | .updatePatientInfoCall pnew =>
            let r := updatePatientInfo reg conversationId pnew createRes updateRes linkRes
            (r.reg, r.db, [], { success := true, message := some "Patient information updated" })
        | .detectLanguageCall newLanguage =>
            if newLanguage ≠ ctx.language then
              let r := updateConversationLanguage reg conversationId newLanguage agent langPersist
              match r.err with
              | some e =>
                  -- the throw inside updateConversationLanguage lands in the
                  -- handler's catch; reconfiguration is never reached
                  (r.reg, r.db, [], failureResult e.msg)
              | none =>
                  match mapGet r.reg conversationId with
                  | some ctx' =>
                      (r.reg, r.db, [updateSessionLanguageEvent ctx'],
                       { success := true
                         message := some (switchedMessage ctx.language newLanguage ctx'.agentName)
                         newAgentName :=
                           some (if ctx'.agentName == "" then ctx.agentName else ctx'.agentName)
                         newLanguage := some newLanguage })
                  | none =>
                      (r.reg, r.db, [],
                       { success := true
                         message := some (switchedMessage ctx.language newLanguage "undefined")
                         newAgentName := some ctx.agentName
                         newLanguage := some newLanguage })
            else
              (reg, [], [],
               { success := true, message := some (alreadySetMessage newLanguage) })
        | .unknown _ => (reg, [], [], failureResult "Unknown function")
      ⟨step.1, step.2.1,
        step.2.2.1 ++ [.itemCreateFunctionOutput callId step.2.2.2, .responseCreate]⟩

/-! ## Provider message loop and greeting latch (`createSession`,
voice.service.ts lines 871-943) -/

/-- The provider event kinds the `ws.on('message')` handler branches
on; everything else falls under `otherEvt`. -/
inductive InEvent
  | sessionUpdated
  | functionCallArgsDone (name : String) (callId : String)
  | userTranscriptCompleted (transcript : String)
  | assistantTranscriptDone (transcript : String)
  | otherEvt (eventType : String)
deriving DecidableEq, Repr

/-- Actions the message handler performs, in order. -/
inductive HandlerAction
  | scheduleGreeting
  | ranToolCall (callId : String)
  | appendedUser (transcript : String)
  | appendedAssistant (transcript : String)
  | forwardedToClient
deriving DecidableEq, Repr

/-- Recognizer for `event.type === 'session.updated'`. -/
def isSessionUpdated (e : InEvent) : Bool :=
  match e with
  | .sessionUpdated => true
  | _ => false

/-- Recognizer for the greeting trigger action. -/
def isGreet (a : HandlerAction) : Bool :=
  match a with
  | .scheduleGreeting => true
  | _ => false

/-- One step of the `ws.on('message')` callback with the per-session
`hasGreeted` latch: on `session.updated` with the latch unset, the
latch is set and the greeting generation request is scheduled
(`setTimeout` → `triggerInitialGreeting`); tool calls and finalized
transcripts dispatch their handlers; every event is forwarded to the
client. -/
def onProviderEvent (hasGreeted : Bool) (e : InEvent) : Bool × List HandlerAction :=
  let fire := isSessionUpdated e && !hasGreeted
  let greetActs : List HandlerAction := if fire then [.scheduleGreeting] else []
  let dispatchActs : List HandlerAction :=
    match e with
    | .functionCallArgsDone _ callId => [.ranToolCall callId]
    | .userTranscriptCompleted t => [.appendedUser t]
    | .assistantTranscriptDone t => [.appendedAssistant t]
    | _ => []
  (hasGreeted || fire, greetActs ++ dispatchActs ++ [.forwardedToClient])

/-- Folding the message handler over a sequence of provider events,
threading the `hasGreeted` latch and accumulating the actions. -/
def runHandler (hasGreeted : Bool) : List InEvent → Bool × List HandlerAction
  | [] => (hasGreeted, [])
  | e :: rest =>
      let s := onProviderEvent hasGreeted e
      let r := runHandler s.1 rest
      (r.1, s.2 ++ r.2)

/-! ## Session Gateway (`VoiceGateway`, voice.gateway.ts)

Embedding of the real gateway: it binds each client connection id to a
conversation id in `clientConversations` and dispatches every non-start
message on that binding — it never consults the session registry
itself.  An uncaught throw out of an async handler appears as the `err`
component (the NestJS runtime logs it); mutations performed before the
throw remain visible. -/

/-- The client-facing event vocabulary (the subset the claims
observe). -/
inductive ClientEvent
  | conversationStarted (conversationId : String) (agentName : String) (language : String)
  | errorEvent (message : String)
  | conversationEnded (conversationId : String)
  | languageUpdated (language : String) (agentName : String)
deriving DecidableEq, Repr

/-- The `clientConversations` map (client id → conversation id). -/
abbrev Bindings := JMap String

/-- Result of one gateway handler: session registry, upstream
connection map, client bindings, database writes, wire messages,
events emitted to the client, and an uncaught error (if the handler's
promise rejected). -/
structure GwRes where
  reg : Registry
  conns : Connections
  bindings : Bindings
  db : List DbWrite
  sent : List (String × OutEvent)
  client : List ClientEvent
  err : Option PErr
deriving DecidableEq, Repr

/-- `VoiceGateway.handleStartConversation`: `data.language || 'en'`,
`initializeConversation`, bind the client, register the provider socket
(`createSession`), emit `conversation_started`.  Any throw is caught
and surfaces as a single `error` event.  (The `setTimeout` kick of a
`response.create` 500 ms later is scheduled, not sent synchronously,
and is not part of this trace.) -/
def handleStartConversation (reg : Registry) (conns : Connections) (bindings : Bindings)
    (clientId : String) (reqLanguage : Option String) (agent : Agent)
    (createRes : Except PErr ConvRow) (ws : WS) : GwRes :=
  let language := if truthyS reqLanguage then reqLanguage.getD "en" else "en"
  let r := initializeConversation reg language agent createRes
  match r.2 with
  | none =>
      -- initializeConversation threw: caught, only an error event
      ⟨r.1.reg, conns, bindings, r.1.db, [],
        [.errorEvent "Failed to start conversation"], none⟩
  | some ctx =>
      let bindings' := mapSet bindings clientId ctx.conversationId
      let conns' := registerConnection conns ctx.conversationId ws
      ⟨r.1.reg, conns', bindings', r.1.db, [],
        [.conversationStarted ctx.conversationId ctx.agentName ctx.language], none⟩

/-- `VoiceGateway.handleAudioData`: forwards the frame iff the client
is bound and the provider socket is connected. -/
def handleAudioData (reg : Registry) (conns : Connections) (bindings : Bindings)
    (clientId : String) (audio : String) : GwRes :=
  match mapGet bindings clientId with
  | none => ⟨reg, conns, bindings, [], [], [], none⟩
  | some conversationId =>
      if isConnected conns conversationId then
        ⟨reg, conns, bindings, [], sendAudio conns conversationId audio, [], none⟩
      else ⟨reg, conns, bindings, [], [], [], none⟩

/-- `VoiceGateway.handleAudioCommit`: commit iff the client is bound
(`sendEvent` itself drops when the socket is not open). -/
def handleAudioCommit (reg : Registry) (conns : Connections) (bindings : Bindings)
    (clientId : String) : GwRes :=
  match mapGet bindings clientId with
  | none => ⟨reg, conns, bindings, [], [], [], none⟩
  | some conversationId =>
      ⟨reg, conns, bindings, [], commitAudio conns conversationId, [], none⟩

/-- `VoiceGateway.handleInterrupt`: cancel iff the client is bound. -/
def handleInterrupt (reg : Registry) (conns : Connections) (bindings : Bindings)
    (clientId : String) : GwRes :=
  match mapGet bindings clientId with
  | none => ⟨reg, conns, bindings, [], [], [], none⟩
  | some conversationId =>
      ⟨reg, conns, bindings, [], cancelResponse conns conversationId, [], none⟩

/-- `VoiceGateway.handleEndConversation`: if the client is bound, ends
the conversation (an uncaught throw from the awaited `endConversation`
skips everything after it), closes the provider socket, clears the
binding and emits `conversation_ended` — the emit happens whether or
not the id was still in the registry. -/
def handleEndConversation (reg : Registry) (conns : Connections) (bindings : Bindings)
    (clientId : String) (genRes : Except PErr String) (persistRes : Except PErr Unit) :
    GwRes :=
  match mapGet bindings clientId with
  | none => ⟨reg, conns, bindings, [], [], [], none⟩
  | some conversationId =>
      let r := endConversation reg conversationId none genRes persistRes
      match r.err with
      | some e => ⟨r.reg, conns, bindings, r.db, [], [], some e⟩
      | none =>
          let c := closeSession conns conversationId
          ⟨r.reg, c.conns, mapDelete bindings clientId, r.db, [],
            [.conversationEnded conversationId], none⟩

/-- `VoiceGateway.handleDisconnect`: same cleanup as
`handleEndConversation` but with no client emit (the client is gone). -/
def handleDisconnect (reg : Registry) (conns : Connections) (bindings : Bindings)
    (clientId : String) (genRes : Except PErr String) (persistRes : Except PErr Unit) :
    GwRes :=
  match mapGet bindings clientId with
  | none => ⟨reg, conns, bindings, [], [], [], none⟩
  | some conversationId =>
      let r := endConversation reg conversationId none genRes persistRes
      match r.err with
      | some e => ⟨r.reg, conns, bindings, r.db, [], [], some e⟩
      | none =>
          let c := closeSession conns conversationId
          ⟨r.reg, c.conns, mapDelete bindings clientId, r.db, [], [], none⟩

/-- `VoiceGateway.handleUpdateLanguage`: if the client is bound,
updates the language (an uncaught throw from the awaited call
propagates), then — only if the session is still in the registry —
reconfigures the upstream session and emits `language_updated`. -/
def handleUpdateLanguage (reg : Registry) (conns : Connections) (bindings : Bindings)
    (clientId : String) (language : String) (agent : Agent)
    (persistRes : Except PErr Unit) : GwRes :=
  match mapGet bindings clientId with
  | none => ⟨reg, conns, bindings, [], [], [], none⟩
  | some conversationId =>
      let r := updateConversationLanguage reg conversationId language agent persistRes
      match r.err with
      | some e => ⟨r.reg, conns, bindings, r.db, [], [], some e⟩
      | none =>
          match getConversation r.reg conversationId with
          | some ctx' =>
              ⟨r.reg, conns, bindings, r.db,
                sendEvent conns conversationId (updateSessionLanguageEvent ctx'),
                [.languageUpdated language ctx'.agentName], none⟩
          | none => ⟨r.reg, conns, bindings, r.db, [], [], none⟩

/-! ## SupabaseService.getRandomAgent (supabase.service.ts lines 46-63) -/

/-- The fixed default persona returned on a pool error or empty pool. -/
def defaultAgent : Agent := ⟨"Assistant", "female"⟩

/-- Embedding of `SupabaseService.getRandomAgent`.  `poolRes` is the
outcome of the `agent_names` query; `randomIndex` stands for
`Math.floor(Math.random() * data.length)` (always in range when the
pool is non-empty).  A falsy (empty) gender column falls back to
`"female"`. -/
def getRandomAgent (poolRes : Except PErr (List AgentRow)) (randomIndex : Nat) : Agent :=
  match poolRes with
  | .error _ => defaultAgent
  | .ok data =>
      if data.length = 0 then defaultAgent
      else
        let row := data.getD randomIndex ⟨"", ""⟩
        { name := row.name
          gender := if row.gender == "" then "female" else row.gender }

/-! ## Claim theorems -/

/-- Recognizer for `session.update` reconfiguration events. -/
def isSessionUpdateEv (e : OutEvent) : Bool :=
  match e with
  | .sessionUpdate _ _ => true
  | _ => false

/-- Recognizer for `function_call_output` items. -/
def isFunctionOutput (e : OutEvent) : Bool :=
  match e with
  | .itemCreateFunctionOutput _ _ => true
  | _ => false

/-- Recognizer for `response.create` requests. -/
def isResponseCreate (e : OutEvent) : Bool :=
  match e with
  | .responseCreate => true
  | _ => false

/-- A concrete English session used by witnesses. -/
def ctxEn : ConversationContext :=
  { conversationId := "c1"
    agentName := "Maya"
    agentGender := "female"
    language := "en"
    patientInfo := {}
    messageHistory := [] }

/-- C2: handling a `detect_language` tool call whose requested language
equals the session's current language leaves the registry (hence
language, agentName, agentGender) unchanged, performs no database
write, emits zero `session.update` reconfigurations, and sends only the
acknowledgment result followed by the `response.create`. -/
theorem c2_detectLanguage_same_noop (reg : Registry) (conversationId : String)
    (ctx : ConversationContext) (callId : String) (agent : Agent)
    (langPersist : Except PErr Unit) (createRes : Except PErr PatientRow)
    (updateRes linkRes : Except PErr Unit)
    (h : mapGet reg conversationId = some ctx) :
    handleFunctionCall reg conversationId (.detectLanguageCall ctx.language) callId agent
        langPersist createRes updateRes linkRes =
      ⟨reg, [],
        [.itemCreateFunctionOutput callId
          { success := true, message := some (alreadySetMessage ctx.language) },
         .responseCreate]⟩
    ∧ (handleFunctionCall reg conversationId (.detectLanguageCall ctx.language) callId agent
        langPersist createRes updateRes linkRes).sent.countP isSessionUpdateEv = 0 := by
  have e1 : handleFunctionCall reg conversationId (.detectLanguageCall ctx.language) callId
      agent langPersist createRes updateRes linkRes =
      ⟨reg, [],
        [.itemCreateFunctionOutput callId
          { success := true, message := some (alreadySetMessage ctx.language) },
         .responseCreate]⟩ := by
    simp [handleFunctionCall, h]
  refine ⟨e1, ?_⟩
  rw [e1]
  rfl

/-- Witness for C2 at a concrete session. -/
theorem c2_detectLanguage_same_noop_witness :
    mapGet ([("c1", ctxEn)] : Registry) "c1" = some ctxEn
    ∧ handleFunctionCall [("c1", ctxEn)] "c1" (.detectLanguageCall ctxEn.language) "call_7"
        ⟨"Zoe", "female"⟩ (.ok ()) (.ok ⟨"p1"⟩) (.ok ()) (.ok ()) =
      ⟨[("c1", ctxEn)], [],
        [.itemCreateFunctionOutput "call_7"
          { success := true, message := some (alreadySetMessage ctxEn.language) },
         .responseCreate]⟩ :=
  ⟨rfl,
    (c2_detectLanguage_same_noop [("c1", ctxEn)] "c1" ctxEn "call_7" ⟨"Zoe", "female"⟩
      (.ok ()) (.ok ⟨"p1"⟩) (.ok ()) (.ok ()) rfl).1⟩

/-- C6: when the conversation-record creation fails,
`initializeConversation` propagates the error, leaves the registry
unchanged and returns no context, and the gateway's
`handleStartConversation` catches the throw and emits only an `error`
event — no `conversation_started` — with registry, bindings and
connections untouched. -/
theorem c6_initializeConversation_failure (reg : Registry) (conns : Connections)
    (bindings : Bindings) (clientId : String) (language : String) (agent : Agent)
    (e : PErr) (reqLanguage : Option String) (ws : WS) :
    (initializeConversation reg language agent (.error e)).1.err = some e
    ∧ (initializeConversation reg language agent (.error e)).1.reg = reg
    ∧ (initializeConversation reg language agent (.error e)).2 = none
    ∧ (handleStartConversation reg conns bindings clientId reqLanguage agent
        (.error e) ws).reg = reg
    ∧ (handleStartConversation reg conns bindings clientId reqLanguage agent
        (.error e) ws).conns = conns
    ∧ (handleStartConversation reg conns bindings clientId reqLanguage agent
        (.error e) ws).bindings = bindings
    ∧ (handleStartConversation reg conns bindings clientId reqLanguage agent
        (.error e) ws).sent = []
    ∧ (handleStartConversation reg conns bindings clientId reqLanguage agent
        (.error e) ws).client = [.errorEvent "Failed to start conversation"]
    ∧ (handleStartConversation reg conns bindings clientId reqLanguage agent
        (.error e) ws).err = none :=
  ⟨rfl, rfl, rfl, rfl, rfl, rfl, rfl, rfl, rfl⟩

/-- C8: `getRandomAgent` returns the fixed default persona on a pool
error or empty pool; on a non-empty pool with the sampled index in
range (as `Math.floor(Math.random()*len)` always is) it returns exactly
the sampled row, which is a member of the pool (for pools whose gender
column is `"male"` or `"female"`). -/
theorem c8_getRandomAgent_correct :
    (∀ (e : PErr) (r : Nat), getRandomAgent (.error e) r = defaultAgent)
    ∧ (∀ r : Nat, getRandomAgent (.ok []) r = defaultAgent)
    ∧ (∀ (pool : List AgentRow) (r : Nat), r < pool.length →
        (∀ row ∈ pool, row.gender = "male" ∨ row.gender = "female") →
        getRandomAgent (.ok pool) r =
          ⟨(pool.getD r ⟨"", ""⟩).name, (pool.getD r ⟨"", ""⟩).gender⟩
        ∧ getRandomAgent (.ok pool) r ∈ pool.map (fun row => Agent.mk row.name row.gender)) := by
  refine ⟨fun e r => rfl, fun r => rfl, ?_⟩
  intro pool r hr hwf
  have hne : ¬(pool.length = 0) := by omega
  have hget : pool.getD r ⟨"", ""⟩ = pool.get ⟨r, hr⟩ := List.getD_eq_get pool ⟨"", ""⟩ hr
  have hmem : pool.get ⟨r, hr⟩ ∈ pool := pool.get_mem r hr
  have hmem' : pool.getD r ⟨"", ""⟩ ∈ pool := by
    rw [hget]
    exact hmem
  have hg : ((pool.getD r ⟨"", ""⟩).gender == "") = false := by
    rcases hwf _ hmem' with h1 | h1 <;> rw [h1] <;> rfl
  have hmain : getRandomAgent (.ok pool) r =
      ⟨(pool.getD r ⟨"", ""⟩).name, (pool.getD r ⟨"", ""⟩).gender⟩ := by
    have e0 : getRandomAgent (.ok pool) r =
        (if pool.length = 0 then defaultAgent
         else
           ⟨(pool.getD r ⟨"", ""⟩).name,
             if ((pool.getD r ⟨"", ""⟩).gender == "") = true then "female"
             else (pool.getD r ⟨"", ""⟩).gender⟩) := rfl
    rw [e0, if_neg hne,
      if_neg (fun hc => by rw [hc] at hg; exact Bool.noConfusion hg :
        ¬(((pool.getD r ⟨"", ""⟩).gender == "") = true))]
  refine ⟨hmain, ?_⟩
  rw [hmain, hget]
  exact List.mem_map_of_mem _ hmem

/-- Witness for C8 at a concrete two-element pool and a failing query. -/
theorem c8_getRandomAgent_witness :
    getRandomAgent (.ok [⟨"Ayse", "female"⟩, ⟨"Mehmet", "male"⟩]) 1 = ⟨"Mehmet", "male"⟩
    ∧ getRandomAgent (.error ⟨"db down"⟩) 0 = defaultAgent
    ∧ getRandomAgent (.ok []) 3 = defaultAgent := by
  refine ⟨?_, c8_getRandomAgent_correct.1 ⟨"db down"⟩ 0, c8_getRandomAgent_correct.2.1 3⟩
  have h := (c8_getRandomAgent_correct.2.2 [⟨"Ayse", "female"⟩, ⟨"Mehmet", "male"⟩] 1
    (by decide) (by decide)).1
  simpa using h

/-- C9: `closeSession` is idempotent (a second close, or a close for an
unregistered id, is a no-op that closes nothing), and under the
unique-key invariant of the JavaScript `Map` at most one connection is
registered per id at any time, registration replacing any previous
entry. -/
theorem c9_closeSession_idempotent (conns : Connections) (conversationId : String) (ws : WS) :
    closeSession (closeSession conns conversationId).conns conversationId =
      ⟨(closeSession conns conversationId).conns, []⟩
    ∧ (mapGet conns conversationId = none → closeSession conns conversationId = ⟨conns, []⟩)
    ∧ (mapWF conns →
        keyCount conns conversationId ≤ 1
        ∧ mapWF (registerConnection conns conversationId ws)
        ∧ mapWF (closeSession conns conversationId).conns
        ∧ keyCount (registerConnection conns conversationId ws) conversationId ≤ 1)
    ∧ mapGet (registerConnection conns conversationId ws) conversationId = some ws := by
  refine ⟨?_, ?_, ?_, mapGet_set_self conns conversationId ws⟩
  · rcases hg : mapGet conns conversationId with _ | ws0
    · simp [closeSession, hg]
    · simp [closeSession, hg, mapGet_delete_self]
  · intro hg
    simp [closeSession, hg]
  · intro hwf
    refine ⟨keyCount_le_one _ _ hwf, mapWF_set _ _ _ hwf, ?_,
      keyCount_le_one _ _ (mapWF_set _ _ _ hwf)⟩
    rcases hg : mapGet conns conversationId with _ | ws0
    · simpa [closeSession, hg] using hwf
    · simpa [closeSession, hg] using mapWF_delete _ _ hwf

/-- Witness for C9 at a concrete connection map. -/
theorem c9_closeSession_idempotent_witness :
    mapGet ([("c1", WS.mk 5 .opened)] : Connections) "c9" = none
    ∧ closeSession [("c1", WS.mk 5 .opened)] "c9" = ⟨[("c1", WS.mk 5 .opened)], []⟩
    ∧ mapWF ([("c1", WS.mk 5 .opened)] : Connections)
    ∧ keyCount ([("c1", WS.mk 5 .opened)] : Connections) "c1" ≤ 1 :=
  ⟨rfl,
    (c9_closeSession_idempotent [("c1", WS.mk 5 .opened)] "c9" (WS.mk 9 .opened)).2.1 rfl,
    by unfold mapWF; decide,
    ((c9_closeSession_idempotent [("c1", WS.mk 5 .opened)] "c1" (WS.mk 9 .opened)).2.2.1
      (by unfold mapWF; decide)).1⟩

/-- C10: `sendEvent` never throws: with no registered connection, or a
socket that is not OPEN, nothing is sent and the call returns normally;
with an OPEN socket exactly the given event is written; `sendAudio`,
`commitAudio` and `cancelResponse` are pass-throughs to `sendEvent`. -/
theorem c10_sendEvent_total (conns : Connections) (conversationId : String)
    (event : OutEvent) (audio : String) :
    (mapGet conns conversationId = none → sendEvent conns conversationId event = [])
    ∧ (∀ ws : WS, mapGet conns conversationId = some ws → ws.readyState ≠ .opened →
        sendEvent conns conversationId event = [])
    ∧ (∀ ws : WS, mapGet conns conversationId = some ws → ws.readyState = .opened →
        sendEvent conns conversationId event = [(conversationId, event)])
    ∧ sendAudio conns conversationId audio =
        sendEvent conns conversationId (.inputAudioAppend audio)
    ∧ commitAudio conns conversationId = sendEvent conns conversationId .inputAudioCommit
    ∧ cancelResponse conns conversationId = sendEvent conns conversationId .responseCancel := by
  refine ⟨?_, ?_, ?_, rfl, rfl, rfl⟩
  · intro h
    simp [sendEvent, h]
  · intro ws h hws
    simp [sendEvent, h, hws]
  · intro ws h hws
    simp [sendEvent, h, hws]

/-- Witness for C10: drop on missing connection, drop on a CLOSED
socket, delivery on an OPEN socket. -/
theorem c10_sendEvent_total_witness :
    sendEvent ([("c1", WS.mk 1 .closed)] : Connections) "c2" .responseCancel = []
    ∧ sendEvent ([("c1", WS.mk 1 .closed)] : Connections) "c1" .responseCancel = []
    ∧ sendEvent ([("c1", WS.mk 1 .opened)] : Connections) "c1" .responseCancel =
        [("c1", .responseCancel)] :=
  ⟨(c10_sendEvent_total [("c1", WS.mk 1 .closed)] "c2" .responseCancel "a").1 rfl,
   (c10_sendEvent_total [("c1", WS.mk 1 .closed)] "c1" .responseCancel "a").2.1
     (WS.mk 1 .closed) rfl (by decide),
   (c10_sendEvent_total [("c1", WS.mk 1 .opened)] "c1" .responseCancel "a").2.2.1
     (WS.mk 1 .opened) rfl rfl⟩

/-- Counterexample for C3 as stated: a gateway `end_conversation`
command whose (stale) client binding references an id absent from the
registry — reachable e.g. after the shutdown path ended the session
without clearing bindings, or via concurrent duplicate end commands —
is not a no-op: it still emits `conversation_ended` and clears the
binding (though it completes without error and the registry is
untouched). -/
theorem c3_staleBinding_end_not_noop :
    mapGet ([] : Registry) "s1" = none
    ∧ (handleEndConversation [] [] [("client1", "s1")] "client1" (.ok "sum")
        (.ok ())).client = [.conversationEnded "s1"]
    ∧ (handleEndConversation [] [] [("client1", "s1")] "client1" (.ok "sum")
        (.ok ())).bindings = []
    ∧ (handleEndConversation [] [] [("client1", "s1")] "client1" (.ok "sum")
        (.ok ())).err = none
    ∧ (handleEndConversation [] [] [("client1", "s1")] "client1" (.ok "sum")
        (.ok ())).reg = [] :=
  ⟨rfl, rfl, rfl, rfl, rfl⟩

/-- C3 (amended): a successfully completed `endConversation` removes
the id from the registry (`getConversation` returns `undefined`);
every Context Manager operation referencing an absent id is a no-op
completing without error; the gateway dispatches on the client binding
and its `end_conversation`/disconnect handlers clear that binding, so
every subsequent command from the client finds no binding and is a
complete no-op without error; and a command whose stale binding
references an id absent from the registry still completes without
error with the registry unchanged — though `end_conversation` then
still emits `conversation_ended` and clears the binding rather than
doing nothing. -/
theorem c3_end_unreachable_absent_noop (reg : Registry) (conns : Connections)
    (bindings : Bindings) (clientId conversationId : String)
    (providedSummary : Option String) (genRes : Except PErr String)
    (persistRes : Except PErr Unit) (agent : Agent) (language : String) (role : Role)
    (content : String) (pnew : PatientInfo) (createRes : Except PErr PatientRow)
    (updateRes linkRes : Except PErr Unit) (audio : String) :
    ((endConversation reg conversationId providedSummary genRes persistRes).err = none →
      getConversation
        (endConversation reg conversationId providedSummary genRes persistRes).reg
        conversationId = none)
    ∧ (mapGet reg conversationId = none →
        updateConversationLanguage reg conversationId language agent persistRes =
          ⟨reg, [], none⟩
        ∧ addMessage reg conversationId role content persistRes = ⟨reg, [], none⟩
        ∧ updatePatientInfo reg conversationId pnew createRes updateRes linkRes =
            ⟨reg, [], none⟩
        ∧ endConversation reg conversationId providedSummary genRes persistRes =
            ⟨reg, [], none⟩)
    ∧ (mapGet bindings clientId = none →
        handleAudioData reg conns bindings clientId audio =
          ⟨reg, conns, bindings, [], [], [], none⟩
        ∧ handleAudioCommit reg conns bindings clientId =
            ⟨reg, conns, bindings, [], [], [], none⟩
        ∧ handleInterrupt reg conns bindings clientId =
            ⟨reg, conns, bindings, [], [], [], none⟩
        ∧ handleEndConversation reg conns bindings clientId genRes persistRes =
            ⟨reg, conns, bindings, [], [], [], none⟩
        ∧ handleDisconnect reg conns bindings clientId genRes persistRes =
            ⟨reg, conns, bindings, [], [], [], none⟩
        ∧ handleUpdateLanguage reg conns bindings clientId language agent persistRes =
            ⟨reg, conns, bindings, [], [], [], none⟩)
    ∧ ((handleEndConversation reg conns bindings clientId genRes persistRes).err = none →
        mapGet
          (handleEndConversation reg conns bindings clientId genRes persistRes).bindings
          clientId = none)
    ∧ ((handleDisconnect reg conns bindings clientId genRes persistRes).err = none →
        mapGet (handleDisconnect reg conns bindings clientId genRes persistRes).bindings
          clientId = none)
    ∧ (mapGet bindings clientId = some conversationId →
        mapGet reg conversationId = none →
        (handleEndConversation reg conns bindings clientId genRes persistRes).reg = reg
        ∧ (handleEndConversation reg conns bindings clientId genRes persistRes).err =
            none
        ∧ (handleEndConversation reg conns bindings clientId genRes persistRes).client =
            [.conversationEnded conversationId]
        ∧ mapGet
            (handleEndConversation reg conns bindings clientId genRes
              persistRes).bindings clientId = none) := by
  refine ⟨?_, ?_, ?_, ?_, ?_, ?_⟩
  · intro herr
    rcases hg : mapGet reg conversationId with _ | ctx
    · simp [endConversation, hg, getConversation]
    · rcases persistRes with e | u
      · exfalso
        simp [endConversation, hg] at herr
      · simp [endConversation, hg, getConversation, mapGet_delete_self]
  · intro hg
    refine ⟨?_, ?_, ?_, ?_⟩ <;>
      simp [updateConversationLanguage, addMessage, updatePatientInfo, endConversation, hg]
  · intro hb
    refine ⟨?_, ?_, ?_, ?_, ?_, ?_⟩ <;>
      simp [handleAudioData, handleAudioCommit, handleInterrupt, handleEndConversation,
        handleDisconnect, handleUpdateLanguage, hb]
  · intro herr
    rcases hb : mapGet bindings clientId with _ | cid
    · simpa [handleEndConversation, hb] using hb
    · rcases hend : (endConversation reg cid none genRes persistRes).err with _ | e
      · simp [handleEndConversation, hb, hend, mapGet_delete_self]
      · exfalso
        simp [handleEndConversation, hb, hend] at herr
  · intro herr
    rcases hb : mapGet bindings clientId with _ | cid
    · simpa [handleDisconnect, hb] using hb
    · rcases hend : (endConversation reg cid none genRes persistRes).err with _ | e
      · simp [handleDisconnect, hb, hend, mapGet_delete_self]
      · exfalso
        simp [handleDisconnect, hb, hend] at herr
  · intro hb hg
    have hend : endConversation reg conversationId none genRes persistRes =
        ⟨reg, [], none⟩ := by
      simp [endConversation, hg]
    refine ⟨?_, ?_, ?_, ?_⟩ <;>
      simp [handleEndConversation, hb, hend, mapGet_delete_self]

/-- Witness for C3 (amended): ending a registered session removes it;
unknown ids and unbound clients are no-ops; a stale binding to an
absent id completes without error with the registry unchanged. -/
theorem c3_end_unreachable_absent_noop_witness :
    (endConversation [("c1", ctxEn)] "c1" (some "bye") (.ok "s") (.ok ())).err = none
    ∧ getConversation (endConversation [("c1", ctxEn)] "c1" (some "bye") (.ok "s")
        (.ok ())).reg "c1" = none
    ∧ mapGet ([] : Registry) "ghost" = none
    ∧ addMessage [] "ghost" .user "hi" (.ok ()) = ⟨[], [], none⟩
    ∧ mapGet ([] : Bindings) "client1" = none
    ∧ handleEndConversation [] [] [] "client1" (.ok "s") (.ok ()) =
        ⟨[], [], [], [], [], [], none⟩
    ∧ (handleEndConversation [] [] [("client1", "s1")] "client1" (.ok "s")
        (.ok ())).reg = [] :=
  ⟨rfl,
    (c3_end_unreachable_absent_noop [("c1", ctxEn)] [] [] "x" "c1" (some "bye")
      (.ok "s") (.ok ()) ⟨"Maya", "female"⟩ "en" .user "hi" {} (.ok ⟨"p1"⟩) (.ok ())
      (.ok ()) "a").1 rfl,
    rfl,
    ((c3_end_unreachable_absent_noop [] [] [] "x" "ghost" none (.ok "s") (.ok ())
      ⟨"Maya", "female"⟩ "en" .user "hi" {} (.ok ⟨"p1"⟩) (.ok ()) (.ok ()) "a").2.1
        rfl).2.1,
    rfl,
    ((c3_end_unreachable_absent_noop [] [] [] "client1" "s1" none (.ok "s") (.ok ())
      ⟨"Maya", "female"⟩ "en" .user "hi" {} (.ok ⟨"p1"⟩) (.ok ()) (.ok ()) "a").2.2.1
        rfl).2.2.2.1,
    ((c3_end_unreachable_absent_noop [] [] [("client1", "s1")] "client1" "s1" none
      (.ok "s") (.ok ()) ⟨"Maya", "female"⟩ "en" .user "hi" {} (.ok ⟨"p1"⟩) (.ok ())
      (.ok ()) "a").2.2.2.2.2 rfl rfl).1⟩

/-- C7: `updatePatientInfo` on a registered session never propagates an
error (all persistence failures are swallowed), stores exactly the
field-by-field merge of the old draft with the partial update (other
context fields untouched), and the merge is last-write-wins per field:
an absent field keeps the old value, a present field overwrites it. -/
theorem c7_updatePatientInfo_merge (reg : Registry) (conversationId : String)
    (ctx : ConversationContext) (pnew : PatientInfo) (createRes : Except PErr PatientRow)
    (updateRes linkRes : Except PErr Unit)
    (h : mapGet reg conversationId = some ctx) :
    (updatePatientInfo reg conversationId pnew createRes updateRes linkRes).err = none
    ∧ (∃ ctx' : ConversationContext,
        mapGet (updatePatientInfo reg conversationId pnew createRes updateRes linkRes).reg
            conversationId = some ctx'
        ∧ ctx'.patientInfo = mergeInfo ctx.patientInfo pnew
        ∧ ctx'.conversationId = ctx.conversationId
        ∧ ctx'.agentName = ctx.agentName
        ∧ ctx'.agentGender = ctx.agentGender
        ∧ ctx'.language = ctx.language
        ∧ ctx'.messageHistory = ctx.messageHistory)
    ∧ (∀ (α : Type) (old : Option α), overrideField old none = old)
    ∧ (∀ (α : Type) (old : Option α) (v : α), overrideField old (some v) = some v) := by
  refine ⟨?_, ?_, fun α old => rfl, fun α old v => rfl⟩
  · simp only [updatePatientInfo, h]
    split
    · split
      · rfl
      · split
        · rfl
        · rfl
    · rfl
  · simp only [updatePatientInfo, h]
    split
    · split
      · exact ⟨_, mapGet_set_self _ _ _, rfl, rfl, rfl, rfl, rfl, rfl⟩
      · split
        · exact ⟨_, mapGet_set_self _ _ _, rfl, rfl, rfl, rfl, rfl, rfl⟩
        · exact ⟨_, mapGet_set_self _ _ _, rfl, rfl, rfl, rfl, rfl, rfl⟩
    · exact ⟨_, mapGet_set_self _ _ _, rfl, rfl, rfl, rfl, rfl, rfl⟩

/-- Witness for C7: merging a partial update into a registered session,
with a failing patient-record creation, still resolves without error. -/
theorem c7_updatePatientInfo_merge_witness :
    mapGet ([("c1", ctxEn)] : Registry) "c1" = some ctxEn
    ∧ (updatePatientInfo [("c1", ctxEn)] "c1"
        { fullName := some "John Smith", age := some 35 } (.error ⟨"db down"⟩) (.ok ())
        (.ok ())).err = none :=
  ⟨rfl,
    (c7_updatePatientInfo_merge [("c1", ctxEn)] "c1" ctxEn
      { fullName := some "John Smith", age := some 35 } (.error ⟨"db down"⟩) (.ok ())
      (.ok ()) rfl).1⟩

/-! ## C4 helper lemmas about the greeting latch -/

theorem onProviderEvent_true_greets_zero (e : InEvent) :
    (onProviderEvent true e).2.countP isGreet = 0 ∧ (onProviderEvent true e).1 = true := by
  cases e <;> simp [onProviderEvent, isSessionUpdated, isGreet, List.countP_cons]

theorem runHandler_true_greets_zero (evs : List InEvent) :
    (runHandler true evs).2.countP isGreet = 0 := by
  induction evs with
  | nil => rfl
  | cons e rest ih =>
      have he := onProviderEvent_true_greets_zero e
      simp only [runHandler, List.countP_append, he.1, he.2, ih]

theorem runHandler_state (g : Bool) (evs : List InEvent) :
    (runHandler g evs).1 = (g || evs.any isSessionUpdated) := by
  induction evs generalizing g with
  | nil => simp [runHandler]
  | cons e rest ih =>
      simp only [runHandler, List.any_cons]
      rw [ih]
      cases g <;> cases e <;> simp [onProviderEvent, isSessionUpdated]

theorem runHandler_false_greets (evs : List InEvent) :
    (runHandler false evs).2.countP isGreet =
      (if evs.any isSessionUpdated = true then 1 else 0) := by
  induction evs with
  | nil => rfl
  | cons e rest ih =>
      cases e <;>
        simp [runHandler, List.countP_append, List.any_cons, onProviderEvent,
          isSessionUpdated, isGreet, List.countP_cons, ih, runHandler_true_greets_zero]

theorem runHandler_append (g : Bool) (xs ys : List InEvent) :
    runHandler g (xs ++ ys) =
      ((runHandler (runHandler g xs).1 ys).1,
        (runHandler g xs).2 ++ (runHandler (runHandler g xs).1 ys).2) := by
  induction xs generalizing g with
  | nil => simp [runHandler]
  | cons e rest ih =>
      simp only [List.cons_append, runHandler, List.append_eq]
      rw [ih]
      simp [List.append_assoc]

/-- C4: over any sequence of provider events the greeting is scheduled
exactly once if at least one `session.updated` acknowledgment arrives
(zero times otherwise); it is scheduled while processing the first
`session.updated`, and once the latch is set no event — in particular
no further `session.updated` — ever re-schedules it. -/
theorem c4_greeting_once (pre post : List InEvent)
    (hpre : pre.any isSessionUpdated = false) :
    (∀ evs : List InEvent,
      (runHandler false evs).2.countP isGreet =
        (if evs.any isSessionUpdated = true then 1 else 0))
    ∧ (runHandler false (pre ++ InEvent.sessionUpdated :: post)).2.countP isGreet = 1
    ∧ (runHandler false pre).2.countP isGreet = 0
    ∧ (runHandler false pre).1 = false
    ∧ (onProviderEvent false InEvent.sessionUpdated).2.countP isGreet = 1
    ∧ (∀ evs : List InEvent, (runHandler true evs).2.countP isGreet = 0) := by
  have hstate : (runHandler false pre).1 = false := by
    rw [runHandler_state, hpre]
    rfl
  refine ⟨runHandler_false_greets, ?_, ?_, hstate, rfl, runHandler_true_greets_zero⟩
  · rw [runHandler_append, List.countP_append, runHandler_false_greets, hpre, hstate,
      runHandler_false_greets]
    simp [List.any_cons, isSessionUpdated]
  · rw [runHandler_false_greets, hpre]
    rfl

/-- Witness for C4: two `session.updated` acknowledgments around other
traffic schedule exactly one greeting. -/
theorem c4_greeting_once_witness :
    ([InEvent.otherEvt "session.created"].any isSessionUpdated = false)
    ∧ (runHandler false
        ([InEvent.otherEvt "session.created"] ++ InEvent.sessionUpdated ::
          [InEvent.userTranscriptCompleted "hi", InEvent.sessionUpdated])).2.countP
        isGreet = 1 :=
  ⟨rfl,
    (c4_greeting_once [InEvent.otherEvt "session.created"]
      [InEvent.userTranscriptCompleted "hi", InEvent.sessionUpdated] rfl).2.1⟩

/-- Counterexample for C5 as stated: for a tool-call completion event
whose conversation id is not in the registry the handler returns
immediately (`if (!context) return`), emitting zero
`function_call_output` items — not the "exactly one" the claim requires
for every received event. -/
theorem c5_unregistered_sends_nothing :
    (handleFunctionCall [] "c1" (.detectLanguageCall "en") "call_1" ⟨"Maya", "female"⟩
        (.ok ()) (.ok ⟨"p1"⟩) (.ok ()) (.ok ())).sent = []
    ∧ (handleFunctionCall [] "c1" (.detectLanguageCall "en") "call_1" ⟨"Maya", "female"⟩
        (.ok ()) (.ok ⟨"p1"⟩) (.ok ()) (.ok ())).sent.countP isFunctionOutput = 0 :=
  ⟨rfl, rfl⟩

/-- C5 (amended): for every tool-call completion event whose
conversation id is registered, the handler emits exactly one
`function_call_output` carrying the originating call id, immediately
followed by exactly one `response.create` (preceded at most by
`session.update` reconfigurations); parse failures, unknown tool names
and exceptions thrown during tool execution (the uncaught persistence
throw inside the awaited language update, landing in the handler's
catch) are converted into a `success := false` result delivered the
same way, and the handler never throws. -/
theorem c5_toolResult_always_delivered (reg : Registry) (conversationId : String)
    (ctx : ConversationContext) (call : ToolCall) (callId : String) (agent : Agent)
    (langPersist : Except PErr Unit) (createRes : Except PErr PatientRow)
    (updateRes linkRes : Except PErr Unit)
    (h : mapGet reg conversationId = some ctx) :
    ∃ (pre : List OutEvent) (res : ToolResult),
      (handleFunctionCall reg conversationId call callId agent langPersist createRes
          updateRes linkRes).sent =
        pre ++ [.itemCreateFunctionOutput callId res, .responseCreate]
      ∧ (∀ e ∈ pre, isSessionUpdateEv e = true)
      ∧ (handleFunctionCall reg conversationId call callId agent langPersist createRes
          updateRes linkRes).sent.countP isFunctionOutput = 1
      ∧ (handleFunctionCall reg conversationId call callId agent langPersist createRes
          updateRes linkRes).sent.countP isResponseCreate = 1
      ∧ (∀ msg, call = .malformed msg → res.success = false)
      ∧ (∀ nm, call = .unknown nm → res.success = false)
      ∧ (∀ (lang : String) (e : PErr), call = .detectLanguageCall lang →
          langPersist = .error e → lang ≠ ctx.language → res.success = false) := by
  simp only [handleFunctionCall, h]
  cases call with
  | malformed msg =>
      refine ⟨[], failureResult msg, rfl, ?_, ?_, ?_, ?_, ?_, ?_⟩
      · simp
      · simp [isFunctionOutput]
      · simp [isFunctionOutput, isResponseCreate]
      · intro m hm
        rfl
      · intro nm hc
        simp at hc
      · intro lg e2 hc hlp hne2
        simp at hc
  | updatePatientInfoCall pnew =>
      refine ⟨[], { success := true, message := some "Patient information updated" }, rfl,
        ?_, ?_, ?_, ?_, ?_, ?_⟩
      · simp
      · simp [isFunctionOutput]
      · simp [isFunctionOutput, isResponseCreate]
      · intro m hc
        simp at hc
      · intro nm hc
        simp at hc
      · intro lg e2 hc hlp hne2
        simp at hc
  | unknown nm =>
      refine ⟨[], failureResult "Unknown function", rfl, ?_, ?_, ?_, ?_, ?_, ?_⟩
      · simp
      · simp [isFunctionOutput]
      · simp [isFunctionOutput, isResponseCreate]
      · intro m hc
        simp at hc
      · intro m hc
        rfl
      · intro lg e2 hc hlp hne2
        simp at hc
  | detectLanguageCall lang =>
      by_cases hne : lang ≠ ctx.language
      · simp only [if_pos hne]
        rcases herr : (updateConversationLanguage reg conversationId lang agent
            langPersist).err with _ | e
        · rcases hg2 : mapGet (updateConversationLanguage reg conversationId lang agent
              langPersist).reg conversationId with _ | ctx'
          · refine ⟨[],
              { success := true
                message := some (switchedMessage ctx.language lang "undefined")
                newAgentName := some ctx.agentName
                newLanguage := some lang }, rfl, ?_, ?_, ?_, ?_, ?_, ?_⟩
            · simp
            · simp [isFunctionOutput]
            · simp [isFunctionOutput, isResponseCreate]
            · intro m hc
              simp at hc
            · intro m hc
              simp at hc
            · intro lg e2 hc hlp hne2
              injection hc with hl
              subst hl
              subst hlp
              have hx : (updateConversationLanguage reg conversationId lang agent
                  (.error e2)).err = some e2 := by
                simp [updateConversationLanguage, h,
                  show ¬(ctx.language = lang) from fun hcc => hne hcc.symm]
              rw [herr] at hx
              exact Option.noConfusion hx
          · refine ⟨[updateSessionLanguageEvent ctx'],
              { success := true
                message := some (switchedMessage ctx.language lang ctx'.agentName)
                newAgentName :=
                  some (if ctx'.agentName == "" then ctx.agentName else ctx'.agentName)
                newLanguage := some lang }, rfl, ?_, ?_, ?_, ?_, ?_, ?_⟩
            · simp [updateSessionLanguageEvent, isSessionUpdateEv]
            · simp [isFunctionOutput, updateSessionLanguageEvent]
            · simp [isFunctionOutput, isResponseCreate, updateSessionLanguageEvent,
                isSessionUpdateEv]
            · intro m hc
              simp at hc
            · intro m hc
              simp at hc
            · intro lg e2 hc hlp hne2
              injection hc with hl
              subst hl
              subst hlp
              have hx : (updateConversationLanguage reg conversationId lang agent
                  (.error e2)).err = some e2 := by
                simp [updateConversationLanguage, h,
                  show ¬(ctx.language = lang) from fun hcc => hne hcc.symm]
              rw [herr] at hx
              exact Option.noConfusion hx
        · refine ⟨[], failureResult e.msg, rfl, ?_, ?_, ?_, ?_, ?_, ?_⟩
          · simp
          · simp [isFunctionOutput]
          · simp [isFunctionOutput, isResponseCreate]
          · intro m hc
            simp at hc
          · intro m hc
            simp at hc
          · intro lg e2 hc hlp hne2
            rfl
      · simp only [if_neg hne]
        refine ⟨[], { success := true, message := some (alreadySetMessage lang) }, rfl,
          ?_, ?_, ?_, ?_, ?_, ?_⟩
        · simp
        · simp [isFunctionOutput]
        · simp [isFunctionOutput, isResponseCreate]
        · intro m hc
          simp at hc
        · intro m hc
          simp at hc
        · intro lg e2 hc hlp hne2
          injection hc with hl
          subst hl
          exact absurd hne2 hne

/-- Witness for C5 (amended) at a registered session and an unknown
tool name. -/
theorem c5_toolResult_always_delivered_witness :
    mapGet ([("c1", ctxEn)] : Registry) "c1" = some ctxEn
    ∧ (handleFunctionCall [("c1", ctxEn)] "c1" (.unknown "mystery_tool") "call_9"
        ⟨"Maya", "female"⟩ (.ok ()) (.ok ⟨"p1"⟩) (.ok ()) (.ok ())).sent.countP
        isFunctionOutput = 1 := by
  refine ⟨rfl, ?_⟩
  obtain ⟨pre, res, h1, h2, h3, h4, h5, h6, h7⟩ :=
    c5_toolResult_always_delivered [("c1", ctxEn)] "c1" ctxEn (.unknown "mystery_tool")
      "call_9" ⟨"Maya", "female"⟩ (.ok ()) (.ok ⟨"p1"⟩) (.ok ()) (.ok ()) rfl
  exact h3
